import Mathlib

/-!
Verification of the padded-column rendering engine.

The model below is a shallow embedding of the two source modules
(src/item.rs and src/value.rs).  A formatter is modelled as a character
sink: a list of characters to which rendering appends.  Rendering a
displayable thing is modelled by a capability that yields the characters
it writes; measuring is a capability that yields a natural number.
An excess handler reads the Excess record and yields the characters it
writes together with the fmt result (the Rust handler receives a
write-only formatter, so it cannot observe previously written output).
-/

namespace PaddedColumn

/-- Where to place the pad, from the PadDirection enum of the crate. -/
inductive PadDirection where
  | Left
  | Right
deriving DecidableEq, Repr

/-- Errors a render can signal.  The engine itself signals none; the
excessError constructor models the ExcessError signalled by rejecting
policies, writeError models a sink failure propagated verbatim. -/
inductive RenderError where
  | writeError
  | excessError
  | unsupportedTruncation
deriving DecidableEq, Repr

/-- Result of one fmt call, mirroring the Rust Result of unit and error. -/
abbrev FmtResult := Except RenderError Unit

/-- Capability to measure display width, from the Width trait bound. -/
class Width (α : Type) where
  width : α → Nat

/-- Capability to write a rendering to a character sink, from Display. -/
class Display (α : Type) where
  render : α → List Char

/-- The Excess record handed to excess handlers, from the crate. -/
structure Excess (Value PadBlock : Type) where
  value : Value
  value_width : Nat
  total_width : Nat
  pad_block : PadBlock

/-- An excess handler: from the Excess record to the characters it writes
into the formatter and the result it returns. -/
abbrev ExcessHandlingFunction (Value PadBlock : Type) :=
  Excess Value PadBlock → List Char × FmtResult

/-- The PaddedItem struct of src/item.rs. -/
structure PaddedItem (Value PadBlock : Type) where
  value : Value
  pad_block : PadBlock
  total_width : Nat
  pad_direction : PadDirection
  handle_excess : ExcessHandlingFunction Value PadBlock

/-- The PaddedValue struct of src/value.rs. -/
structure PaddedValue (Value PadBlock : Type) where
  value : Value
  pad_block : PadBlock
  total_width : Nat
  pad_direction : PadDirection
  handle_excess : ExcessHandlingFunction Value PadBlock

/-- Display::fmt of PaddedItem (src/item.rs lines 74 to 102).  The
formatter argument is the sink contents before the call; the function
returns the sink contents after the call together with the result. -/
def PaddedItem.fmt {Value PadBlock : Type} [Width Value] [Display Value]
    [Display PadBlock] (self : PaddedItem Value PadBlock)
    (formatter : List Char) : List Char × FmtResult :=
  let value := self.value
  let pad_block := self.pad_block
  let total_width := self.total_width
  let pad_direction := self.pad_direction
  let handle_excess := self.handle_excess
  let value_width := Width.width value
  if total_width ≥ value_width then
    let pad_width := total_width - value_width
    let pad := (List.replicate pad_width (Display.render pad_block)).flatten
    match pad_direction with
    | PadDirection.Left => (formatter ++ pad ++ Display.render value, Except.ok ())
    | PadDirection.Right => (formatter ++ Display.render value ++ pad, Except.ok ())
  else
    let written := handle_excess
      { value := value
        value_width := value_width
        total_width := total_width
        pad_block := pad_block }
    (formatter ++ written.1, written.2)

/-- Display::fmt of PaddedValue (src/value.rs lines 74 to 102), translated
separately from that file. -/
def PaddedValue.fmt {Value PadBlock : Type} [Width Value] [Display Value]
    [Display PadBlock] (self : PaddedValue Value PadBlock)
    (formatter : List Char) : List Char × FmtResult :=
  let value := self.value
  let pad_block := self.pad_block
  let total_width := self.total_width
  let pad_direction := self.pad_direction
  let handle_excess := self.handle_excess
  let value_width := Width.width value
  if total_width ≥ value_width then
    let pad_width := total_width - value_width
    let pad := (List.replicate pad_width (Display.render pad_block)).flatten
    match pad_direction with
    | PadDirection.Left => (formatter ++ pad ++ Display.render value, Except.ok ())
    | PadDirection.Right => (formatter ++ Display.render value ++ pad, Except.ok ())
  else
    let written := handle_excess
      { value := value
        value_width := value_width
        total_width := total_width
        pad_block := pad_block }
    (formatter ++ written.1, written.2)

/-- Modelled from the spec: the ForbidExcess policy is not under src (only
its name is imported there); section 7 of the spec says it always fails
with ExcessError and never writes. -/
def ForbidExcess {Value PadBlock : Type} : ExcessHandlingFunction Value PadBlock :=
  fun _ => ([], Except.error RenderError.excessError)

/-- A string-like test value: its rendering is a list of characters and
its measured width is the number of characters. -/
structure StrValue where
  chars : List Char
deriving DecidableEq

instance : Width StrValue := ⟨fun v => v.chars.length⟩

instance : Display StrValue := ⟨fun v => v.chars⟩

/-- A single-character pad block, the default PadBlock of the crate. -/
structure CharBlock where
  c : Char
deriving DecidableEq

instance : Display CharBlock := ⟨fun b => [b.c]⟩

/-- Nat subtraction as Rust evaluates it in checked builds: defined only
when there is no underflow, none modelling the underflow panic. -/
def checkedSub (a b : Nat) : Option Nat := if b ≤ a then some (a - b) else none

/-- PaddedItem fmt with the subtraction of line 85 of src/item.rs replaced
by checkedSub: returns none exactly if that subtraction would underflow. -/
def PaddedItem.fmtChecked {Value PadBlock : Type} [Width Value] [Display Value]
    [Display PadBlock] (self : PaddedItem Value PadBlock)
    (formatter : List Char) : Option (List Char × FmtResult) :=
  let value := self.value
  let pad_block := self.pad_block
  let total_width := self.total_width
  let pad_direction := self.pad_direction
  let handle_excess := self.handle_excess
  let value_width := Width.width value
  if total_width ≥ value_width then
    match checkedSub total_width value_width with
    | none => none
    | some pad_width =>
      let pad := (List.replicate pad_width (Display.render pad_block)).flatten
      match pad_direction with
      | PadDirection.Left =>
        some (formatter ++ pad ++ Display.render value, Except.ok ())
      | PadDirection.Right =>
        some (formatter ++ Display.render value ++ pad, Except.ok ())
  else
    let written := handle_excess
      { value := value
        value_width := value_width
        total_width := total_width
        pad_block := pad_block }
    some (formatter ++ written.1, written.2)

/-- The concrete scenario of spec section 8: value abcdef of width 6,
pad block the dash character, total width 9, direction Before. -/
def exItemBefore : PaddedItem StrValue CharBlock :=
  ⟨⟨"abcdef".toList⟩, ⟨'-'⟩, 9, PadDirection.Left, ForbidExcess⟩

/-- The same scenario with direction After. -/
def exItemAfter : PaddedItem StrValue CharBlock :=
  ⟨⟨"abcdef".toList⟩, ⟨'-'⟩, 9, PadDirection.Right, ForbidExcess⟩

/-- Scenario 3 of spec section 8: value width equals total width. -/
def exItemExact : PaddedItem StrValue CharBlock :=
  ⟨⟨"abcdef".toList⟩, ⟨'-'⟩, 6, PadDirection.Left, ForbidExcess⟩

/-- Scenario 4 of spec section 8: value abcdefgh of width 8 against total
width 5, an excess case, under the Forbid policy. -/
def exItemExcess : PaddedItem StrValue CharBlock :=
  ⟨⟨"abcdefgh".toList⟩, ⟨'-'⟩, 5, PadDirection.Left, ForbidExcess⟩

/-- Helper: the length of a flattened replication. -/
theorem length_flatten_replicate (n : Nat) (l : List Char) :
    (List.replicate n l).flatten.length = n * l.length := by
  induction n with
  | zero => simp
  | succ k ih =>
    simp [List.replicate_succ, ih, Nat.succ_mul, Nat.add_comm]

/-- Helper: fmt only appends to the formatter, and what it appends and the
result it returns do not depend on the prior formatter contents. -/
theorem fmt_shift {Value PadBlock : Type} [Width Value] [Display Value]
    [Display PadBlock] (item : PaddedItem Value PadBlock) (sink : List Char) :
    item.fmt sink = (sink ++ (item.fmt []).1, (item.fmt []).2) := by
  obtain ⟨v, p, t, d, g⟩ := item
  by_cases h : t ≥ Width.width v
  · cases d <;> simp [PaddedItem.fmt, h]
  · simp [PaddedItem.fmt, h]

/-- Claim C1: when the value width is at most the total width and the
direction is Left (Before), fmt appends the pad block rendering repeated
exactly (total width minus value width) times, followed by the value
rendering, nothing else, and succeeds. -/
theorem claim1_pad_before {Value PadBlock : Type} [Width Value] [Display Value]
    [Display PadBlock] (item : PaddedItem Value PadBlock) (sink : List Char)
    (h : Width.width item.value ≤ item.total_width)
    (hd : item.pad_direction = PadDirection.Left) :
    item.fmt sink =
      (sink ++ (List.replicate (item.total_width - Width.width item.value)
          (Display.render item.pad_block)).flatten ++ Display.render item.value,
        Except.ok ()) := by
  obtain ⟨v, p, t, d, g⟩ := item
  cases d with
  | Left => simp [PaddedItem.fmt, h]
  | Right => exact PadDirection.noConfusion hd

/-- Witness for C1 at scenario 1 of spec section 8. -/
theorem claim1_witness :
    Width.width exItemBefore.value ≤ exItemBefore.total_width ∧
    exItemBefore.pad_direction = PadDirection.Left ∧
    exItemBefore.fmt [] = ("---abcdef".toList, Except.ok ()) :=
  ⟨by decide, rfl, (claim1_pad_before exItemBefore [] (by decide) rfl).trans rfl⟩

/-- Claim C2: when the value width is at most the total width and the
direction is Right (After), fmt appends the value rendering followed by the
pad block rendering repeated exactly (total width minus value width) times,
nothing else, and succeeds. -/
theorem claim2_pad_after {Value PadBlock : Type} [Width Value] [Display Value]
    [Display PadBlock] (item : PaddedItem Value PadBlock) (sink : List Char)
    (h : Width.width item.value ≤ item.total_width)
    (hd : item.pad_direction = PadDirection.Right) :
    item.fmt sink =
      (sink ++ Display.render item.value ++
          (List.replicate (item.total_width - Width.width item.value)
          (Display.render item.pad_block)).flatten,
        Except.ok ()) := by
  obtain ⟨v, p, t, d, g⟩ := item
  cases d with
  | Left => exact PadDirection.noConfusion hd
  | Right => simp [PaddedItem.fmt, h]

/-- Witness for C2 at scenario 2 of spec section 8. -/
theorem claim2_witness :
    Width.width exItemAfter.value ≤ exItemAfter.total_width ∧
    exItemAfter.pad_direction = PadDirection.Right ∧
    exItemAfter.fmt [] = ("abcdef---".toList, Except.ok ()) :=
  ⟨by decide, rfl, (claim2_pad_after exItemAfter [] (by decide) rfl).trans rfl⟩

/-- Claim C3: when the value width is at most the total width, the value
rendering measures exactly the value width, and the pad block rendering has
width exactly 1, the rendered output measures exactly the total width, for
either direction. -/
theorem claim3_width_exact {Value PadBlock : Type} [Width Value] [Display Value]
    [Display PadBlock] (item : PaddedItem Value PadBlock)
    (h : Width.width item.value ≤ item.total_width)
    (hp : (Display.render item.pad_block).length = 1)
    (hv : (Display.render item.value).length = Width.width item.value) :
    ((item.fmt []).1).length = item.total_width := by
  obtain ⟨v, p, t, d, g⟩ := item
  simp only at h hp hv
  cases d <;>
    simp [PaddedItem.fmt, h, hp, hv, length_flatten_replicate]

/-- Witness for C3 at scenario 1 of spec section 8. -/
theorem claim3_witness :
    Width.width exItemBefore.value ≤ exItemBefore.total_width ∧
    (Display.render exItemBefore.pad_block).length = 1 ∧
    (Display.render exItemBefore.value).length = Width.width exItemBefore.value ∧
    ((exItemBefore.fmt []).1).length = exItemBefore.total_width :=
  ⟨by decide, by decide, by decide,
    claim3_width_exact exItemBefore (by decide) (by decide) (by decide)⟩

/-- Claim C4: when the value width equals the total width, fmt takes the
padding branch with a pad count of zero and appends exactly the unpadded
value rendering, for either direction and for every excess handler (the
handler field is arbitrary and absent from the result, so it is never
invoked). -/
theorem claim4_exact_width {Value PadBlock : Type} [Width Value] [Display Value]
    [Display PadBlock] (item : PaddedItem Value PadBlock) (sink : List Char)
    (h : Width.width item.value = item.total_width) :
    item.fmt sink = (sink ++ Display.render item.value, Except.ok ()) := by
  obtain ⟨v, p, t, d, g⟩ := item
  simp only at h
  cases d <;> simp [PaddedItem.fmt, ← h, Nat.sub_self]

/-- Witness for C4 at scenario 3 of spec section 8. -/
theorem claim4_witness :
    Width.width exItemExact.value = exItemExact.total_width ∧
    exItemExact.fmt [] = ("abcdef".toList, Except.ok ()) :=
  ⟨by decide, (claim4_exact_width exItemExact [] (by decide)).trans rfl⟩

/-- Claim C5: when the total width is strictly below the value width, fmt
writes nothing itself: it invokes the excess handler once on the Excess
record built from the borrowed value, the measured value width, the
requested total width and the borrowed pad block, appends only what the
handler writes, and returns the handler result unchanged. -/
theorem claim5_excess_delegates {Value PadBlock : Type} [Width Value]
    [Display Value] [Display PadBlock] (item : PaddedItem Value PadBlock)
    (sink : List Char) (h : item.total_width < Width.width item.value) :
    item.fmt sink =
      (sink ++ (item.handle_excess
          ⟨item.value, Width.width item.value, item.total_width,
            item.pad_block⟩).1,
        (item.handle_excess
          ⟨item.value, Width.width item.value, item.total_width,
            item.pad_block⟩).2) := by
  obtain ⟨v, p, t, d, g⟩ := item
  simp only at h
  simp [PaddedItem.fmt, Nat.not_le.mpr h]

/-- Witness for C5 at scenario 4 of spec section 8. -/
theorem claim5_witness :
    exItemExcess.total_width < Width.width exItemExcess.value ∧
    exItemExcess.fmt [] = ([], Except.error RenderError.excessError) :=
  ⟨by decide, (claim5_excess_delegates exItemExcess [] (by decide)).trans rfl⟩

/-- Counterexample to claim C6 as stated: with value width 6 equal to total
width 6 and the rejecting ForbidExcess policy installed, fmt succeeds with
the unpadded value, while the excess policy, had it been routed to, would
have returned the excess error; so a value whose width equals the target is
not routed to the excess policy. -/
theorem claim6_counterexample :
    exItemExact.fmt [] = ("abcdef".toList, Except.ok ()) ∧
    (exItemExact.handle_excess
        ⟨exItemExact.value, 6, 6, exItemExact.pad_block⟩).2 =
      Except.error RenderError.excessError :=
  ⟨rfl, rfl⟩

/-- Claim C6 amended: the excess policy is invoked exactly when the value
width strictly exceeds the target width; when the value width is at most
the target (equality included), the padding branch runs and the result does
not depend on the installed handler. -/
theorem claim6_excess_iff {Value PadBlock : Type} [Width Value] [Display Value]
    [Display PadBlock] (item : PaddedItem Value PadBlock) (sink : List Char) :
    (item.total_width < Width.width item.value →
      item.fmt sink =
        (sink ++ (item.handle_excess
            ⟨item.value, Width.width item.value, item.total_width,
              item.pad_block⟩).1,
          (item.handle_excess
            ⟨item.value, Width.width item.value, item.total_width,
              item.pad_block⟩).2)) ∧
    (Width.width item.value ≤ item.total_width →
      ∀ g : ExcessHandlingFunction Value PadBlock,
        PaddedItem.fmt { item with handle_excess := g } sink = item.fmt sink) := by
  obtain ⟨v, p, t, d, g⟩ := item
  constructor
  · intro h
    simp only at h
    simp [PaddedItem.fmt, Nat.not_le.mpr h]
  · intro h g2
    simp only at h
    cases d <;> simp [PaddedItem.fmt, h]

/-- Witness for the amended C6: an excess case is delegated, and at the
equality case swapping the handler does not change the output. -/
theorem claim6_witness :
    (exItemExcess.total_width < Width.width exItemExcess.value ∧
      exItemExcess.fmt [] = ([], Except.error RenderError.excessError)) ∧
    (Width.width exItemExact.value ≤ exItemExact.total_width ∧
      PaddedItem.fmt
          { exItemExact with handle_excess := fun _ => ([], Except.ok ()) } [] =
        exItemExact.fmt []) :=
  ⟨⟨by decide,
      ((claim6_excess_iff exItemExcess []).1 (by decide)).trans rfl⟩,
    ⟨by decide,
      (claim6_excess_iff exItemExact []).2 (by decide)
        (fun _ => ([], Except.ok ()))⟩⟩

/-- Claim C7: when the value width strictly exceeds the total width and the
installed policy is ForbidExcess, fmt fails with the excess error and
leaves the sink untouched.  ForbidExcess is modelled from the spec since
its definition is outside src. -/
theorem claim7_forbid_fails {Value PadBlock : Type} [Width Value]
    [Display Value] [Display PadBlock] (item : PaddedItem Value PadBlock)
    (sink : List Char) (h : item.total_width < Width.width item.value)
    (hf : item.handle_excess = ForbidExcess) :
    item.fmt sink = (sink, Except.error RenderError.excessError) := by
  obtain ⟨v, p, t, d, g⟩ := item
  simp only at h hf
  simp [PaddedItem.fmt, Nat.not_le.mpr h, hf, ForbidExcess]

/-- Witness for C7 at scenario 4 of spec section 8. -/
theorem claim7_witness :
    exItemExcess.total_width < Width.width exItemExcess.value ∧
    exItemExcess.handle_excess = ForbidExcess ∧
    exItemExcess.fmt [] = ([], Except.error RenderError.excessError) :=
  ⟨by decide, rfl, claim7_forbid_fails exItemExcess [] (by decide) rfl⟩

/-- Claim C8: the two near-duplicate modules implement the same rendering
function: on identical field tuples and identical formatter contents,
PaddedItem fmt and PaddedValue fmt agree exactly. -/
theorem claim8_modules_agree {Value PadBlock : Type} [Width Value]
    [Display Value] [Display PadBlock] (value : Value) (pad_block : PadBlock)
    (total_width : Nat) (pad_direction : PadDirection)
    (handle_excess : ExcessHandlingFunction Value PadBlock)
    (sink : List Char) :
    PaddedItem.fmt
        ⟨value, pad_block, total_width, pad_direction, handle_excess⟩ sink =
      PaddedValue.fmt
        ⟨value, pad_block, total_width, pad_direction, handle_excess⟩ sink :=
  rfl

/-- Claim C9: rendering is deterministic across sinks: the characters fmt
appends and the result it returns are the same for any two independent
sinks, hence two runs of the same request produce byte-identical output. -/
theorem claim9_deterministic {Value PadBlock : Type} [Width Value]
    [Display Value] [Display PadBlock] (item : PaddedItem Value PadBlock)
    (sink1 sink2 : List Char) :
    ∃ out r, item.fmt sink1 = (sink1 ++ out, r) ∧
      item.fmt sink2 = (sink2 ++ out, r) :=
  ⟨(item.fmt []).1, (item.fmt []).2, fmt_shift item sink1, fmt_shift item sink2⟩

/-- Claim C10: the width arithmetic never underflows: with the subtraction
of the padding branch replaced by checked subtraction (none on underflow),
fmt still evaluates, on every input including a total width of zero, to
exactly the unchecked result; the guard makes the pad count computation
total. -/
theorem claim10_no_underflow {Value PadBlock : Type} [Width Value]
    [Display Value] [Display PadBlock] (item : PaddedItem Value PadBlock)
    (sink : List Char) :
    item.fmtChecked sink = some (item.fmt sink) := by
  obtain ⟨v, p, t, d, g⟩ := item
  by_cases h : t ≥ Width.width v
  · cases d <;>
      simp [PaddedItem.fmt, PaddedItem.fmtChecked, checkedSub, h]
  · simp [PaddedItem.fmt, PaddedItem.fmtChecked, checkedSub, h]

end PaddedColumn
